import Mathlib

/-!
Verification of the runtime type guards of `@python-portal/types`
(`src/src/index.ts`): `isExercise`, `isTestResult`, `isAPIResponse`,
`isCodeExecutionResult`.

JavaScript values are embedded as the inductive type `JSValue`.  Objects
and arrays share the `obj` constructor (a field list plus an array flag),
since `typeof` returns `"object"` for both.  The JS operators used by the
guards are embedded with their exception behaviour: the `in` operator and
property access throw a `TypeError` when applied to a non-object, so both
are modelled in the `Except` monad; `&&` short-circuits, modelled by
`jsAnd`.  Each guard is then a literal transcription of its `&&` chain.
-/

inductive JSValue where
  | null : JSValue
  | undefined : JSValue
  | bool : Bool → JSValue
  | num : Int → JSValue
  | str : String → JSValue
  | obj : List (String × JSValue) → Bool → JSValue
deriving Repr

/-- The JS `typeof` operator (total; `typeof null` is `"object"`). -/
def JSValue.typeof : JSValue → String
  | .null => "object"
  | .undefined => "undefined"
  | .bool _ => "boolean"
  | .num _ => "number"
  | .str _ => "string"
  | .obj _ _ => "object"

/-- Strict inequality against the `null` literal (`obj !== null`). -/
def JSValue.notNull : JSValue → Bool
  | .null => false
  | _ => true

/-- `Array.isArray`. -/
def JSValue.isArr : JSValue → Bool
  | .obj _ a => a
  | _ => false

/-- First-match lookup of a key in an object's field list; a missing
property reads as `undefined`, as in JS. -/
def lookupKey (fs : List (String × JSValue)) (k : String) : JSValue :=
  match fs.find? (fun p => p.1 == k) with
  | some p => p.2
  | none => .undefined

/-- The JS `in` operator: key membership on an object, a `TypeError`
on any non-object right-hand side. -/
def jsIn (k : String) (v : JSValue) : Except String Bool :=
  match v with
  | .obj fs _ => .ok (fs.any (fun p => p.1 == k))
  | _ => .error "TypeError: cannot use in operator on a non-object"

/-- JS property access `v.k`: a `TypeError` on `null`/`undefined`,
`undefined` for properties not present (primitives are boxed and carry
none of the guarded keys). -/
def getField (v : JSValue) (k : String) : Except String JSValue :=
  match v with
  | .null => .error "TypeError: cannot read properties of null"
  | .undefined => .error "TypeError: cannot read properties of undefined"
  | .obj fs _ => .ok (lookupKey fs k)
  | _ => .ok .undefined

/-- Short-circuiting `&&` over possibly-throwing boolean computations. -/
def jsAnd (a : Except String Bool) (b : Unit → Except String Bool) :
    Except String Bool :=
  match a with
  | .error e => .error e
  | .ok false => .ok false
  | .ok true => b ()

/-- `typeof v.k === ty` as evaluated by the guards: the property is read
first (which may throw), then its `typeof` is compared to `ty`. -/
def typecheckField (v : JSValue) (k ty : String) : Except String Bool :=
  match getField v k with
  | .error e => .error e
  | .ok f => .ok (f.typeof == ty)

/-- `Array.isArray(v.k)` as evaluated by `isTestResult`. -/
def arraycheckField (v : JSValue) (k : String) : Except String Bool :=
  match getField v k with
  | .error e => .error e
  | .ok f => .ok f.isArr

/-- Transcription of `isExercise` from `src/src/index.ts`. -/
def isExercise (obj : JSValue) : Except String Bool :=
  jsAnd (.ok (obj.typeof == "object")) fun _ =>
  jsAnd (.ok obj.notNull) fun _ =>
  jsAnd (jsIn "id" obj) fun _ =>
  jsAnd (jsIn "title" obj) fun _ =>
  jsAnd (jsIn "starterCode" obj) fun _ =>
  jsAnd (typecheckField obj "id" "string") fun _ =>
  typecheckField obj "title" "string"

/-- Transcription of `isTestResult` from `src/src/index.ts`. -/
def isTestResult (obj : JSValue) : Except String Bool :=
  jsAnd (.ok (obj.typeof == "object")) fun _ =>
  jsAnd (.ok obj.notNull) fun _ =>
  jsAnd (jsIn "passed" obj) fun _ =>
  jsAnd (jsIn "output" obj) fun _ =>
  jsAnd (jsIn "testCases" obj) fun _ =>
  jsAnd (typecheckField obj "passed" "boolean") fun _ =>
  arraycheckField obj "testCases"

/-- Transcription of `isAPIResponse` from `src/src/index.ts`. -/
def isAPIResponse (obj : JSValue) : Except String Bool :=
  jsAnd (.ok (obj.typeof == "object")) fun _ =>
  jsAnd (.ok obj.notNull) fun _ =>
  jsAnd (jsIn "success" obj) fun _ =>
  typecheckField obj "success" "boolean"

/-- Transcription of `isCodeExecutionResult` from `src/src/index.ts`. -/
def isCodeExecutionResult (obj : JSValue) : Except String Bool :=
  jsAnd (.ok (obj.typeof == "object")) fun _ =>
  jsAnd (.ok obj.notNull) fun _ =>
  jsAnd (jsIn "success" obj) fun _ =>
  jsAnd (jsIn "output" obj) fun _ =>
  jsAnd (jsIn "executionTime" obj) fun _ =>
  typecheckField obj "success" "boolean"

/-! Spec-side observations, following the spec's words: "the value is a
non-null object/map", "present as a key", "satisfies that type". -/

/-- Spec: the value is a non-null object/map (arrays included, as the
spec's edge cases attach required keys to arrays). -/
def isNonNullObject : JSValue → Bool
  | .obj _ _ => true
  | _ => false

/-- Spec: the field is present as a key. -/
def hasKey (v : JSValue) (k : String) : Bool :=
  match v with
  | .obj fs _ => fs.any (fun p => p.1 == k)
  | _ => false

/-- The value read when the guard type-checks field `k` of `v`. -/
def fieldVal (v : JSValue) (k : String) : JSValue :=
  match v with
  | .obj fs _ => lookupKey fs k
  | _ => .undefined

/-- Spec: the field satisfies the primitive-type check `ty`. -/
def fieldHasType (v : JSValue) (k ty : String) : Bool :=
  (fieldVal v k).typeof == ty

/-- Spec: the field holds a sequence/array. -/
def fieldIsArray (v : JSValue) (k : String) : Bool :=
  (fieldVal v k).isArr

/-- Spec schema for `Exercise`: non-null object, keys `id`, `title`,
`starterCode` present, `id` and `title` strings. -/
def exerciseShape (v : JSValue) : Bool :=
  isNonNullObject v && hasKey v "id" && hasKey v "title" &&
  hasKey v "starterCode" && fieldHasType v "id" "string" &&
  fieldHasType v "title" "string"

/-- Spec schema for `TestResult`: non-null object, keys `passed`,
`output`, `testCases` present, `passed` boolean, `testCases` an array. -/
def testResultShape (v : JSValue) : Bool :=
  isNonNullObject v && hasKey v "passed" && hasKey v "output" &&
  hasKey v "testCases" && fieldHasType v "passed" "boolean" &&
  fieldIsArray v "testCases"

/-- Spec schema for `APIResponse`: non-null object, key `success`
present and boolean. -/
def apiResponseShape (v : JSValue) : Bool :=
  isNonNullObject v && hasKey v "success" &&
  fieldHasType v "success" "boolean"

/-- Spec schema for `CodeExecutionResult`: non-null object, keys
`success`, `output`, `executionTime` present, `success` boolean. -/
def codeExecutionResultShape (v : JSValue) : Bool :=
  isNonNullObject v && hasKey v "success" && hasKey v "output" &&
  hasKey v "executionTime" && fieldHasType v "success" "boolean"

/-! Characterization lemmas: each guard evaluates without throwing to
exactly its spec-side schema check. -/

@[simp] theorem typeof_obj (fs : List (String × JSValue)) (a : Bool) :
    (JSValue.obj fs a).typeof = "object" := rfl

@[simp] theorem notNull_obj (fs : List (String × JSValue)) (a : Bool) :
    (JSValue.obj fs a).notNull = true := rfl

@[simp] theorem isArr_obj (fs : List (String × JSValue)) (a : Bool) :
    (JSValue.obj fs a).isArr = a := rfl

theorem isExercise_eq (v : JSValue) :
    isExercise v = .ok (exerciseShape v) := by
  cases v
  case obj fs a =>
    cases hk1 : fs.any (fun p => p.1 == "id") <;>
    cases hk2 : fs.any (fun p => p.1 == "title") <;>
    cases hk3 : fs.any (fun p => p.1 == "starterCode") <;>
    cases ht1 : (lookupKey fs "id").typeof == "string" <;>
    cases ht2 : (lookupKey fs "title").typeof == "string" <;>
    simp [isExercise, exerciseShape, jsAnd, jsIn, typecheckField, getField,
      isNonNullObject, hasKey, fieldHasType, fieldVal,
      hk1, hk2, hk3, ht1, ht2]
  all_goals rfl

theorem isTestResult_eq (v : JSValue) :
    isTestResult v = .ok (testResultShape v) := by
  cases v
  case obj fs a =>
    cases hk1 : fs.any (fun p => p.1 == "passed") <;>
    cases hk2 : fs.any (fun p => p.1 == "output") <;>
    cases hk3 : fs.any (fun p => p.1 == "testCases") <;>
    cases ht1 : (lookupKey fs "passed").typeof == "boolean" <;>
    cases ht2 : (lookupKey fs "testCases").isArr <;>
    simp [isTestResult, testResultShape, jsAnd, jsIn, typecheckField,
      arraycheckField, getField, isNonNullObject, hasKey, fieldHasType,
      fieldIsArray, fieldVal, hk1, hk2, hk3, ht1, ht2]
  all_goals rfl

theorem isAPIResponse_eq (v : JSValue) :
    isAPIResponse v = .ok (apiResponseShape v) := by
  cases v
  case obj fs a =>
    cases hk1 : fs.any (fun p => p.1 == "success") <;>
    cases ht1 : (lookupKey fs "success").typeof == "boolean" <;>
    simp [isAPIResponse, apiResponseShape, jsAnd, jsIn, typecheckField,
      getField, isNonNullObject, hasKey, fieldHasType, fieldVal,
      hk1, ht1]
  all_goals rfl

theorem isCodeExecutionResult_eq (v : JSValue) :
    isCodeExecutionResult v = .ok (codeExecutionResultShape v) := by
  cases v
  case obj fs a =>
    cases hk1 : fs.any (fun p => p.1 == "success") <;>
    cases hk2 : fs.any (fun p => p.1 == "output") <;>
    cases hk3 : fs.any (fun p => p.1 == "executionTime") <;>
    cases ht1 : (lookupKey fs "success").typeof == "boolean" <;>
    simp [isCodeExecutionResult, codeExecutionResultShape, jsAnd, jsIn,
      typecheckField, getField, isNonNullObject, hasKey, fieldHasType,
      fieldVal, hk1, hk2, hk3, ht1]
  all_goals rfl

@[simp] theorem typeof_null : JSValue.typeof .null = "object" := rfl

@[simp] theorem typeof_undefined : JSValue.typeof .undefined = "undefined" := rfl

@[simp] theorem typeof_bool (b : Bool) : (JSValue.bool b).typeof = "boolean" := rfl

@[simp] theorem typeof_num (n : Int) : (JSValue.num n).typeof = "number" := rfl

@[simp] theorem typeof_str (s : String) : (JSValue.str s).typeof = "string" := rfl

/-! Extending an object's field list with keys the guard never inspects
changes neither key presence nor the value read for an inspected key. -/

theorem anyKey_append (fs ex : List (String × JSValue)) (k : String)
    (h : ∀ p ∈ ex, (p.1 == k) = false) :
    ((fs ++ ex).any fun p => p.1 == k) = (fs.any fun p => p.1 == k) := by
  rw [List.any_append]
  have hex : (ex.any fun p => p.1 == k) = false := by
    rw [List.any_eq_false]
    intro p hp
    simp [h p hp]
  rw [hex, Bool.or_false]

theorem lookupKey_append (fs ex : List (String × JSValue)) (k : String)
    (h : ∀ p ∈ ex, (p.1 == k) = false) :
    lookupKey (fs ++ ex) k = lookupKey fs k := by
  unfold lookupKey
  rw [List.find?_append]
  have hex : (ex.find? fun p => p.1 == k) = none := by
    rw [List.find?_eq_none]
    intro p hp
    simp [h p hp]
  rw [hex]
  cases fs.find? fun p => p.1 == k <;> rfl

/-- C1: each of the four guards returns `true` exactly when its input is a
non-null object carrying every required key of its schema, with every
type-checked field of the schema satisfying its primitive-type check; a
minimal correctly-typed object is accepted and an object missing a
required key (e.g. a test result without `testCases`) is rejected. -/
theorem C1_guards_match_schemas :
    (∀ v : JSValue,
      (isExercise v = .ok true ↔ exerciseShape v = true) ∧
      (isTestResult v = .ok true ↔ testResultShape v = true) ∧
      (isAPIResponse v = .ok true ↔ apiResponseShape v = true) ∧
      (isCodeExecutionResult v = .ok true ↔ codeExecutionResultShape v = true)) ∧
    isExercise (.obj [("id", .str "ex-1"), ("title", .str "Hello"),
      ("starterCode", .str "x = 1")] false) = .ok true ∧
    isTestResult (.obj [("passed", .bool true), ("output", .str ""),
      ("testCases", .obj [] true)] false) = .ok true ∧
    isAPIResponse (.obj [("success", .bool true)] false) = .ok true ∧
    isCodeExecutionResult (.obj [("success", .bool true), ("output", .str ""),
      ("executionTime", .num 12)] false) = .ok true ∧
    isTestResult (.obj [("passed", .bool true), ("output", .str "")] false) =
      .ok false := by
  refine ⟨fun v => ⟨?_, ?_, ?_, ?_⟩, rfl, rfl, rfl, rfl, rfl⟩
  · rw [isExercise_eq]; simp
  · rw [isTestResult_eq]; simp
  · rw [isAPIResponse_eq]; simp
  · rw [isCodeExecutionResult_eq]; simp

/-- C2: every non-object input (null, undefined, numbers, strings) is
rejected by all four guards, an array missing one of a guard's required
keys is rejected by that guard, and in particular `isExercise null` is
`false`. -/
theorem C2_non_objects_rejected :
    (∀ v : JSValue, isNonNullObject v = false →
      isExercise v = .ok false ∧ isTestResult v = .ok false ∧
      isAPIResponse v = .ok false ∧ isCodeExecutionResult v = .ok false) ∧
    (∀ fs : List (String × JSValue),
      ((hasKey (.obj fs true) "id" = false ∨ hasKey (.obj fs true) "title" = false ∨
        hasKey (.obj fs true) "starterCode" = false) →
        isExercise (.obj fs true) = .ok false) ∧
      ((hasKey (.obj fs true) "passed" = false ∨ hasKey (.obj fs true) "output" = false ∨
        hasKey (.obj fs true) "testCases" = false) →
        isTestResult (.obj fs true) = .ok false) ∧
      (hasKey (.obj fs true) "success" = false →
        isAPIResponse (.obj fs true) = .ok false) ∧
      ((hasKey (.obj fs true) "success" = false ∨ hasKey (.obj fs true) "output" = false ∨
        hasKey (.obj fs true) "executionTime" = false) →
        isCodeExecutionResult (.obj fs true) = .ok false)) ∧
    isExercise .null = .ok false := by
  refine ⟨fun v h => ?_, fun fs => ⟨fun h => ?_, fun h => ?_, fun h => ?_, fun h => ?_⟩, rfl⟩
  · rw [isExercise_eq, isTestResult_eq, isAPIResponse_eq, isCodeExecutionResult_eq]
    simp [exerciseShape, testResultShape, apiResponseShape,
      codeExecutionResultShape, h]
  · rw [isExercise_eq]
    rcases h with h | h | h <;> simp [exerciseShape, h]
  · rw [isTestResult_eq]
    rcases h with h | h | h <;> simp [testResultShape, h]
  · rw [isAPIResponse_eq]
    simp [apiResponseShape, h]
  · rw [isCodeExecutionResult_eq]
    rcases h with h | h | h <;> simp [codeExecutionResultShape, h]

/-- Witness for C2 at concrete inputs: `null`, a number, and an empty
array (which lacks every required key). -/
theorem C2_non_objects_rejected_witness :
    isExercise .null = .ok false ∧ isTestResult (.num 3) = .ok false ∧
    isExercise (.obj [] true) = .ok false :=
  ⟨(C2_non_objects_rejected.1 .null rfl).1,
   (C2_non_objects_rejected.1 (.num 3) rfl).2.1,
   (C2_non_objects_rejected.2.1 []).1 (Or.inl rfl)⟩

/-- C3: an object holding all of a schema's required keys but whose
type-checked field has the wrong type is rejected: a non-boolean
`passed` fails `isTestResult`, a non-boolean `success` fails
`isAPIResponse` and `isCodeExecutionResult`, a non-string `id` or
`title` fails `isExercise`, and a non-array `testCases` fails
`isTestResult`. -/
theorem C3_wrong_type_rejected :
    ∀ v : JSValue,
      (hasKey v "passed" = true → hasKey v "output" = true →
        hasKey v "testCases" = true → fieldHasType v "passed" "boolean" = false →
        isTestResult v = .ok false) ∧
      (hasKey v "success" = true → fieldHasType v "success" "boolean" = false →
        isAPIResponse v = .ok false) ∧
      (hasKey v "id" = true → hasKey v "title" = true →
        hasKey v "starterCode" = true → fieldHasType v "id" "string" = false →
        isExercise v = .ok false) ∧
      (hasKey v "id" = true → hasKey v "title" = true →
        hasKey v "starterCode" = true → fieldHasType v "title" "string" = false →
        isExercise v = .ok false) ∧
      (hasKey v "success" = true → hasKey v "output" = true →
        hasKey v "executionTime" = true → fieldHasType v "success" "boolean" = false →
        isCodeExecutionResult v = .ok false) ∧
      (hasKey v "passed" = true → hasKey v "output" = true →
        hasKey v "testCases" = true → fieldIsArray v "testCases" = false →
        isTestResult v = .ok false) := by
  intro v
  refine ⟨fun _ _ _ h => ?_, fun _ h => ?_, fun _ _ _ h => ?_,
    fun _ _ _ h => ?_, fun _ _ _ h => ?_, fun _ _ _ h => ?_⟩
  · rw [isTestResult_eq]; simp [testResultShape, h]
  · rw [isAPIResponse_eq]; simp [apiResponseShape, h]
  · rw [isExercise_eq]; simp [exerciseShape, h]
  · rw [isExercise_eq]; simp [exerciseShape, h]
  · rw [isCodeExecutionResult_eq]; simp [codeExecutionResultShape, h]
  · rw [isTestResult_eq]; simp [testResultShape, h]

/-- Witness for C3: `passed: "yes"` fails `isTestResult`,
`{success: "true"}` fails `isAPIResponse`. -/
theorem C3_wrong_type_rejected_witness :
    isTestResult (.obj [("passed", .str "yes"), ("output", .str ""),
      ("testCases", .obj [] true)] false) = .ok false ∧
    isAPIResponse (.obj [("success", .str "true")] false) = .ok false :=
  ⟨(C3_wrong_type_rejected (.obj [("passed", .str "yes"), ("output", .str ""),
      ("testCases", .obj [] true)] false)).1 rfl rfl rfl rfl,
   (C3_wrong_type_rejected (.obj [("success", .str "true")] false)).2.1 rfl rfl⟩

theorem exerciseShape_append (fs ex : List (String × JSValue)) (a : Bool)
    (h : ∀ p ∈ ex, p.1 ∉ (["id", "title", "starterCode"] : List String)) :
    exerciseShape (.obj (fs ++ ex) a) = exerciseShape (.obj fs a) := by
  have hne : ∀ p ∈ ex, p.1 ≠ "id" ∧ p.1 ≠ "title" ∧ p.1 ≠ "starterCode" := by
    intro p hp
    have := h p hp
    simp only [List.mem_cons, List.not_mem_nil, or_false, not_or] at this
    exact this
  have h1 : ∀ p ∈ ex, (p.1 == "id") = false := fun p hp => by
    simp [(hne p hp).1]
  have h2 : ∀ p ∈ ex, (p.1 == "title") = false := fun p hp => by
    simp [(hne p hp).2.1]
  have h3 : ∀ p ∈ ex, (p.1 == "starterCode") = false := fun p hp => by
    simp [(hne p hp).2.2]
  simp only [exerciseShape, isNonNullObject, hasKey, fieldHasType, fieldVal]
  rw [anyKey_append fs ex _ h1, anyKey_append fs ex _ h2,
    anyKey_append fs ex _ h3, lookupKey_append fs ex _ h1,
    lookupKey_append fs ex _ h2]

theorem testResultShape_append (fs ex : List (String × JSValue)) (a : Bool)
    (h : ∀ p ∈ ex, p.1 ∉ (["passed", "output", "testCases"] : List String)) :
    testResultShape (.obj (fs ++ ex) a) = testResultShape (.obj fs a) := by
  have hne : ∀ p ∈ ex, p.1 ≠ "passed" ∧ p.1 ≠ "output" ∧ p.1 ≠ "testCases" := by
    intro p hp
    have := h p hp
    simp only [List.mem_cons, List.not_mem_nil, or_false, not_or] at this
    exact this
  have h1 : ∀ p ∈ ex, (p.1 == "passed") = false := fun p hp => by
    simp [(hne p hp).1]
  have h2 : ∀ p ∈ ex, (p.1 == "output") = false := fun p hp => by
    simp [(hne p hp).2.1]
  have h3 : ∀ p ∈ ex, (p.1 == "testCases") = false := fun p hp => by
    simp [(hne p hp).2.2]
  simp only [testResultShape, isNonNullObject, hasKey, fieldHasType,
    fieldIsArray, fieldVal]
  rw [anyKey_append fs ex _ h1, anyKey_append fs ex _ h2,
    anyKey_append fs ex _ h3, lookupKey_append fs ex _ h1,
    lookupKey_append fs ex _ h3]

theorem apiResponseShape_append (fs ex : List (String × JSValue)) (a : Bool)
    (h : ∀ p ∈ ex, p.1 ∉ (["success"] : List String)) :
    apiResponseShape (.obj (fs ++ ex) a) = apiResponseShape (.obj fs a) := by
  have h1 : ∀ p ∈ ex, (p.1 == "success") = false := by
    intro p hp
    have := h p hp
    simp only [List.mem_cons, List.not_mem_nil, or_false] at this
    simp [this]
  simp only [apiResponseShape, isNonNullObject, hasKey, fieldHasType, fieldVal]
  rw [anyKey_append fs ex _ h1, lookupKey_append fs ex _ h1]

theorem codeExecutionResultShape_append (fs ex : List (String × JSValue))
    (a : Bool)
    (h : ∀ p ∈ ex, p.1 ∉ (["success", "output", "executionTime"] : List String)) :
    codeExecutionResultShape (.obj (fs ++ ex) a) =
      codeExecutionResultShape (.obj fs a) := by
  have hne : ∀ p ∈ ex, p.1 ≠ "success" ∧ p.1 ≠ "output" ∧
      p.1 ≠ "executionTime" := by
    intro p hp
    have := h p hp
    simp only [List.mem_cons, List.not_mem_nil, or_false, not_or] at this
    exact this
  have h1 : ∀ p ∈ ex, (p.1 == "success") = false := fun p hp => by
    simp [(hne p hp).1]
  have h2 : ∀ p ∈ ex, (p.1 == "output") = false := fun p hp => by
    simp [(hne p hp).2.1]
  have h3 : ∀ p ∈ ex, (p.1 == "executionTime") = false := fun p hp => by
    simp [(hne p hp).2.2]
  simp only [codeExecutionResultShape, isNonNullObject, hasKey, fieldHasType,
    fieldVal]
  rw [anyKey_append fs ex _ h1, anyKey_append fs ex _ h2,
    anyKey_append fs ex _ h3, lookupKey_append fs ex _ h1]

/-- C4: appending extra fields whose keys are outside a guard's checked
set to an accepted object leaves the guard's verdict `true` — the
schemas are not closed under unknown fields. -/
theorem C4_extra_fields_ignored :
    ∀ (fs ex : List (String × JSValue)) (a : Bool),
      ((∀ p ∈ ex, p.1 ∉ (["id", "title", "starterCode"] : List String)) →
        isExercise (.obj fs a) = .ok true →
        isExercise (.obj (fs ++ ex) a) = .ok true) ∧
      ((∀ p ∈ ex, p.1 ∉ (["passed", "output", "testCases"] : List String)) →
        isTestResult (.obj fs a) = .ok true →
        isTestResult (.obj (fs ++ ex) a) = .ok true) ∧
      ((∀ p ∈ ex, p.1 ∉ (["success"] : List String)) →
        isAPIResponse (.obj fs a) = .ok true →
        isAPIResponse (.obj (fs ++ ex) a) = .ok true) ∧
      ((∀ p ∈ ex, p.1 ∉ (["success", "output", "executionTime"] : List String)) →
        isCodeExecutionResult (.obj fs a) = .ok true →
        isCodeExecutionResult (.obj (fs ++ ex) a) = .ok true) := by
  intro fs ex a
  refine ⟨fun h hv => ?_, fun h hv => ?_, fun h hv => ?_, fun h hv => ?_⟩
  · rw [isExercise_eq] at hv ⊢
    rw [exerciseShape_append fs ex a h]
    exact hv
  · rw [isTestResult_eq] at hv ⊢
    rw [testResultShape_append fs ex a h]
    exact hv
  · rw [isAPIResponse_eq] at hv ⊢
    rw [apiResponseShape_append fs ex a h]
    exact hv
  · rw [isCodeExecutionResult_eq] at hv ⊢
    rw [codeExecutionResultShape_append fs ex a h]
    exact hv

/-- Witness for C4: an accepted API envelope keeps being accepted after
two unrelated fields are appended. -/
theorem C4_extra_fields_ignored_witness :
    isAPIResponse (.obj ([("success", .bool true)] ++
      [("data", .num 1), ("extra", .str "x")]) false) = .ok true :=
  (C4_extra_fields_ignored [("success", .bool true)]
    [("data", .num 1), ("extra", .str "x")] false).2.2.1 (by decide) rfl

/-- C5: fields checked for presence only (`starterCode`, `output`,
`executionTime`) accept a present key of any type: the guards return
`true` whenever the required keys are present and the type-checked
fields are correct, whatever the presence-only fields hold; concretely,
a numeric `starterCode` passes `isExercise` and a string
`executionTime` passes `isCodeExecutionResult`. -/
theorem C5_presence_only_fields :
    (∀ (fs : List (String × JSValue)) (a : Bool),
      hasKey (.obj fs a) "id" = true → hasKey (.obj fs a) "title" = true →
      hasKey (.obj fs a) "starterCode" = true →
      fieldHasType (.obj fs a) "id" "string" = true →
      fieldHasType (.obj fs a) "title" "string" = true →
      isExercise (.obj fs a) = .ok true) ∧
    (∀ (fs : List (String × JSValue)) (a : Bool),
      hasKey (.obj fs a) "success" = true → hasKey (.obj fs a) "output" = true →
      hasKey (.obj fs a) "executionTime" = true →
      fieldHasType (.obj fs a) "success" "boolean" = true →
      isCodeExecutionResult (.obj fs a) = .ok true) ∧
    (∀ (fs : List (String × JSValue)) (a : Bool),
      hasKey (.obj fs a) "passed" = true → hasKey (.obj fs a) "output" = true →
      hasKey (.obj fs a) "testCases" = true →
      fieldHasType (.obj fs a) "passed" "boolean" = true →
      fieldIsArray (.obj fs a) "testCases" = true →
      isTestResult (.obj fs a) = .ok true) ∧
    isExercise (.obj [("id", .str "a"), ("title", .str "b"),
      ("starterCode", .num 7)] false) = .ok true ∧
    isCodeExecutionResult (.obj [("success", .bool true), ("output", .num 0),
      ("executionTime", .str "soon")] false) = .ok true := by
  refine ⟨fun fs a h1 h2 h3 h4 h5 => ?_, fun fs a h1 h2 h3 h4 => ?_,
    fun fs a h1 h2 h3 h4 h5 => ?_, rfl, rfl⟩
  · rw [isExercise_eq]
    simp only [exerciseShape, isNonNullObject, h1, h2, h3, h4, h5,
      Bool.and_self, Bool.and_true]
  · rw [isCodeExecutionResult_eq]
    simp only [codeExecutionResultShape, isNonNullObject, h1, h2, h3, h4,
      Bool.and_self, Bool.and_true]
  · rw [isTestResult_eq]
    simp only [testResultShape, isNonNullObject, h1, h2, h3, h4, h5,
      Bool.and_self, Bool.and_true]

/-- Witness for C5: an exercise whose `starterCode` is a boolean is
still accepted, via the general statement. -/
theorem C5_presence_only_fields_witness :
    isExercise (.obj [("id", .str "e"), ("title", .str "t"),
      ("starterCode", .bool false)] true) = .ok true :=
  C5_presence_only_fields.1 [("id", .str "e"), ("title", .str "t"),
    ("starterCode", .bool false)] true rfl rfl rfl rfl rfl

/-- C6: every guard terminates with a boolean on every input — no
evaluation ever reaches a throwing operation (`in` or property access on
a non-object), so malformed input yields `false`, never an exception. -/
theorem C6_guards_never_throw :
    ∀ v : JSValue,
      (isExercise v).isOk = true ∧ (isTestResult v).isOk = true ∧
      (isAPIResponse v).isOk = true ∧ (isCodeExecutionResult v).isOk = true := by
  intro v
  rw [isExercise_eq, isTestResult_eq, isAPIResponse_eq,
    isCodeExecutionResult_eq]
  exact ⟨rfl, rfl, rfl, rfl⟩

/-- C7: each guard is deterministic and stateless — two evaluations on
the same value give the same result (the guards are pure functions of
their argument in this embedding, with no state to thread). -/
theorem C7_deterministic :
    ∀ v : JSValue,
      isExercise v = isExercise v ∧ isTestResult v = isTestResult v ∧
      isAPIResponse v = isAPIResponse v ∧
      isCodeExecutionResult v = isCodeExecutionResult v :=
  fun _ => ⟨rfl, rfl, rfl, rfl⟩

/-- Everything `isExercise` observes about a value: non-null-objectness,
presence of its three required keys, and the two string checks. -/
def exerciseObs (v : JSValue) : Bool × Bool × Bool × Bool × Bool × Bool :=
  (isNonNullObject v, hasKey v "id", hasKey v "title",
   hasKey v "starterCode", fieldHasType v "id" "string",
   fieldHasType v "title" "string")

/-- Everything `isTestResult` observes about a value. -/
def testResultObs (v : JSValue) : Bool × Bool × Bool × Bool × Bool × Bool :=
  (isNonNullObject v, hasKey v "passed", hasKey v "output",
   hasKey v "testCases", fieldHasType v "passed" "boolean",
   fieldIsArray v "testCases")

/-- Everything `isAPIResponse` observes about a value. -/
def apiResponseObs (v : JSValue) : Bool × Bool × Bool :=
  (isNonNullObject v, hasKey v "success", fieldHasType v "success" "boolean")

/-- Everything `isCodeExecutionResult` observes about a value. -/
def codeExecutionResultObs (v : JSValue) : Bool × Bool × Bool × Bool × Bool :=
  (isNonNullObject v, hasKey v "success", hasKey v "output",
   hasKey v "executionTime", fieldHasType v "success" "boolean")

/-- C8: validation is shallow — two values that agree on a guard's
top-level observations (key presence and primitive types of checked
fields) receive the same verdict, however much their nested content
(elements of `testCases`, contents of `data`, nested
`testResult`/`environment`) differs. -/
theorem C8_shallow_validation :
    ∀ v w : JSValue,
      (exerciseObs v = exerciseObs w → isExercise v = isExercise w) ∧
      (testResultObs v = testResultObs w → isTestResult v = isTestResult w) ∧
      (apiResponseObs v = apiResponseObs w → isAPIResponse v = isAPIResponse w) ∧
      (codeExecutionResultObs v = codeExecutionResultObs w →
        isCodeExecutionResult v = isCodeExecutionResult w) := by
  intro v w
  refine ⟨fun h => ?_, fun h => ?_, fun h => ?_, fun h => ?_⟩
  · simp only [exerciseObs, Prod.mk.injEq] at h
    obtain ⟨h1, h2, h3, h4, h5, h6⟩ := h
    rw [isExercise_eq, isExercise_eq]
    simp only [exerciseShape, h1, h2, h3, h4, h5, h6]
  · simp only [testResultObs, Prod.mk.injEq] at h
    obtain ⟨h1, h2, h3, h4, h5, h6⟩ := h
    rw [isTestResult_eq, isTestResult_eq]
    simp only [testResultShape, h1, h2, h3, h4, h5, h6]
  · simp only [apiResponseObs, Prod.mk.injEq] at h
    obtain ⟨h1, h2, h3⟩ := h
    rw [isAPIResponse_eq, isAPIResponse_eq]
    simp only [apiResponseShape, h1, h2, h3]
  · simp only [codeExecutionResultObs, Prod.mk.injEq] at h
    obtain ⟨h1, h2, h3, h4, h5⟩ := h
    rw [isCodeExecutionResult_eq, isCodeExecutionResult_eq]
    simp only [codeExecutionResultShape, h1, h2, h3, h4, h5]

/-- Witness for C8: two test results whose `testCases` elements and
`output` payloads differ arbitrarily get the same verdict. -/
theorem C8_shallow_validation_witness :
    isTestResult (.obj [("passed", .bool true), ("output", .str "ran"),
      ("testCases", .obj [("0", .num 1)] true)] false) =
    isTestResult (.obj [("passed", .bool true), ("output", .num 99),
      ("testCases", .obj [("0", .obj [("nested", .null)] false)] true)] false) :=
  (C8_shallow_validation
    (.obj [("passed", .bool true), ("output", .str "ran"),
      ("testCases", .obj [("0", .num 1)] true)] false)
    (.obj [("passed", .bool true), ("output", .num 99),
      ("testCases", .obj [("0", .obj [("nested", .null)] false)] true)] false)
    ).2.1 rfl

/-- C9: a required key explicitly bound to `undefined` satisfies the
presence check: a code-execution result whose `output` and
`executionTime` are `undefined` (with boolean `success`) and a test
result whose `output` is `undefined` (with boolean `passed` and an
array `testCases`) are accepted, whatever further fields follow. -/
theorem C9_undefined_counts_as_present :
    ∀ (b : Bool) (tc rest : List (String × JSValue)),
      isCodeExecutionResult (.obj (("success", .bool b) ::
        ("output", .undefined) :: ("executionTime", .undefined) :: rest)
        false) = .ok true ∧
      isTestResult (.obj (("passed", .bool b) :: ("output", .undefined) ::
        ("testCases", .obj tc true) :: rest) false) = .ok true := by
  intro b tc rest
  constructor
  · rw [isCodeExecutionResult_eq]
    simp [codeExecutionResultShape, isNonNullObject, hasKey, fieldHasType,
      fieldVal, lookupKey, List.any_cons, List.find?]
  · rw [isTestResult_eq]
    simp [testResultShape, isNonNullObject, hasKey, fieldHasType,
      fieldIsArray, fieldVal, lookupKey, List.any_cons, List.find?]

/-- C10: an array value carrying the required keys as properties is
accepted — the guards cannot tell such an array from a plain object.
An array with string `id` and `title` and any `starterCode` passes
`isExercise`; an array with boolean `passed`, any `output` and an array
`testCases` passes `isTestResult`. -/
theorem C10_arrays_with_keys_accepted :
    ∀ (s t : String) (w o : JSValue) (b : Bool)
      (tc rest : List (String × JSValue)),
      isExercise (.obj (("id", .str s) :: ("title", .str t) ::
        ("starterCode", w) :: rest) true) = .ok true ∧
      isTestResult (.obj (("passed", .bool b) :: ("output", o) ::
        ("testCases", .obj tc true) :: rest) true) = .ok true := by
  intro s t w o b tc rest
  constructor
  · rw [isExercise_eq]
    simp [exerciseShape, isNonNullObject, hasKey, fieldHasType,
      fieldVal, lookupKey, List.any_cons, List.find?]
  · rw [isTestResult_eq]
    simp [testResultShape, isNonNullObject, hasKey, fieldHasType,
      fieldIsArray, fieldVal, lookupKey, List.any_cons, List.find?]
